import Mathlib

/-!
Verification of the pinned-memory gateway (`src/csrc/mem_alloc.cpp`).

The component consists of two functions wrapping the GPU runtime's
host-memory API:

  uintptr_t alloc_pinned_ptr(size_t size, unsigned int flags) {
    void* ptr = nullptr;
    cudaError_t err = cudaHostAlloc(&ptr, size, flags);
    if (err != cudaSuccess) {
      throw std::runtime_error("cudaHostAlloc failed: " + std::to_string(err));
    }
    return reinterpret_cast<uintptr_t>(ptr);
  }

  void free_pinned_ptr(uintptr_t ptr) {
    cudaError_t err = cudaFreeHost(reinterpret_cast<void*>(ptr));
    if (err != cudaSuccess) {
      throw std::runtime_error("cudaFreeHost failed: " + std::to_string(err));
    }
  }

The underlying runtime (`cudaHostAlloc` / `cudaFreeHost`) is an external,
opaque collaborator; it is modelled as a parameter: a `Runtime σ` supplies
the two primitive calls as state transformers over an abstract runtime
state `σ`.  Pointer values (`void*` / `uintptr_t`) are modelled as `Nat`:
the casts in the source are bit-pattern-preserving reinterpretations, so a
`Nat` handle equal to the pointer's numeric value is a faithful model (no
arithmetic is ever performed on it).  The `cudaError_t` status is a `Nat`
with `cudaSuccess = 0`.  A thrown `std::runtime_error` becomes the
`Except.error` branch of an `Except String` result, carrying the
exception's message string; both functions throw the same exception type,
which the single error type `String` of the `Except` reflects.

Each execution also records the list of primitive runtime calls made, so
that statements such as "passes the arguments unmodified" and "makes
exactly one runtime call" become provable: every interaction with the
runtime goes through `cudaHostAllocCall` / `cudaFreeHostCall`, which
append the call they make, with its exact arguments, to the trace.
-/

/-- The success status of the CUDA runtime (`cudaSuccess` has value 0). -/
def cudaSuccess : Nat := 0

/-- Result of a single `cudaHostAlloc` call: `ptr` is the value left in the
output pointer variable after the call (the caller initialises it to the
null pointer, i.e. 0, so a runtime that writes nothing leaves it at 0),
and `err` is the returned `cudaError_t` status. -/
structure AllocResult where
  ptr : Nat
  err : Nat
deriving DecidableEq, Repr

/-- The external GPU runtime: an opaque collaborator with abstract internal
state `σ`, supplying `hostAlloc (size, flags)` and `hostFree (ptr)`. -/
structure Runtime (σ : Type) where
  hostAlloc : σ → Nat → Nat → AllocResult × σ
  hostFree : σ → Nat → Nat × σ

/-- One primitive call into the runtime, with the exact arguments passed. -/
inductive RTCall where
  | hostAlloc (size flags : Nat)
  | hostFree (ptr : Nat)
deriving DecidableEq, Repr

/-- Execution state: the runtime's abstract state paired with the trace of
primitive runtime calls made so far. -/
abbrev RTState (σ : Type) := σ × List RTCall

/-- The `cudaHostAlloc(&ptr, size, flags)` primitive: queries the runtime
and records the call, with the exact arguments, in the trace. -/
def cudaHostAllocCall (rt : Runtime σ) (st : RTState σ) (size flags : Nat) :
    AllocResult × RTState σ :=
  let (r, s) := rt.hostAlloc st.1 size flags
  (r, (s, st.2 ++ [RTCall.hostAlloc size flags]))

/-- The `cudaFreeHost(ptr)` primitive: queries the runtime and records the
call, with the exact pointer, in the trace. -/
def cudaFreeHostCall (rt : Runtime σ) (st : RTState σ) (ptr : Nat) :
    Nat × RTState σ :=
  let (e, s) := rt.hostFree st.1 ptr
  (e, (s, st.2 ++ [RTCall.hostFree ptr]))

/-- Model of `alloc_pinned_ptr` from `src/csrc/mem_alloc.cpp`: one
`cudaHostAlloc` call; on a non-success status it throws a
`std::runtime_error` whose message is the literal `"cudaHostAlloc failed: "`
followed by `std::to_string(err)` (the status in decimal); otherwise it
returns the pointer value reinterpreted as an integer handle. -/
def alloc_pinned_ptr (rt : Runtime σ) (st : RTState σ) (size flags : Nat) :
    Except String Nat × RTState σ :=
  let (r, st1) := cudaHostAllocCall rt st size flags
  if r.err ≠ cudaSuccess then
    (Except.error ("cudaHostAlloc failed: " ++ toString r.err), st1)
  else
    (Except.ok r.ptr, st1)

/-- Model of `free_pinned_ptr` from `src/csrc/mem_alloc.cpp`: the handle is
reinterpreted back into a pointer and passed to one `cudaFreeHost` call; on
a non-success status it throws a `std::runtime_error` whose message is the
literal `"cudaFreeHost failed: "` followed by `std::to_string(err)`;
otherwise it returns normally. -/
def free_pinned_ptr (rt : Runtime σ) (st : RTState σ) (ptr : Nat) :
    Except String Unit × RTState σ :=
  let (e, st1) := cudaFreeHostCall rt st ptr
  if e ≠ cudaSuccess then
    (Except.error ("cudaFreeHost failed: " ++ toString e), st1)
  else
    (Except.ok (), st1)

/-- Whether an `Except` result is the error branch (an exception thrown). -/
def isError : Except ε α → Bool
  | Except.error _ => true
  | Except.ok _ => false

/-- A concrete runtime whose calls always succeed: `hostAlloc` writes the
pointer value 4096 and `hostFree` accepts every pointer (as the CUDA
runtime does for a null pointer, treating the free as a no-op). -/
def okRuntime : Runtime Unit where
  hostAlloc := fun s _ _ => ({ ptr := 4096, err := cudaSuccess }, s)
  hostFree := fun s _ => (cudaSuccess, s)

/-- A concrete runtime whose calls always fail: `hostAlloc` reports status 2
(out of memory) leaving the pointer null, and `hostFree` reports status 1. -/
def failRuntime : Runtime Unit where
  hostAlloc := fun s _ _ => ({ ptr := 0, err := 2 }, s)
  hostFree := fun s _ => (1, s)

/-- A concrete runtime that reports success while leaving the output
pointer at its initial null value. -/
def nullOkRuntime : Runtime Unit where
  hostAlloc := fun s _ _ => ({ ptr := 0, err := cudaSuccess }, s)
  hostFree := fun s _ => (cudaSuccess, s)

/-- A concrete stateful runtime tracking the list of live allocations:
`hostAlloc` returns a fresh nonzero pointer and marks it live; `hostFree`
succeeds exactly on live pointers and removes them. -/
def listRuntime : Runtime (List Nat) where
  hostAlloc := fun live size _ =>
    ({ ptr := size + 1, err := cudaSuccess }, (size + 1) :: live)
  hostFree := fun live p =>
    if p ∈ live then (cudaSuccess, live.erase p) else (1, live)

/-- Characterisation of the result of `alloc_pinned_ptr` in terms of the
runtime's response to the one `hostAlloc` call it makes. -/
theorem alloc_pinned_ptr_fst (rt : Runtime σ) (st : RTState σ) (size flags : Nat) :
    (alloc_pinned_ptr rt st size flags).1 =
      if (rt.hostAlloc st.1 size flags).1.err = cudaSuccess
      then Except.ok (rt.hostAlloc st.1 size flags).1.ptr
      else Except.error
        ("cudaHostAlloc failed: " ++ toString (rt.hostAlloc st.1 size flags).1.err) := by
  unfold alloc_pinned_ptr cudaHostAllocCall
  by_cases h : (rt.hostAlloc st.1 size flags).1.err = cudaSuccess <;> simp [h]

/-- Characterisation of the state after `alloc_pinned_ptr`: the runtime
state evolves by the one `hostAlloc` call, and that call, carrying the
exact `size` and `flags` arguments, is appended to the trace. -/
theorem alloc_pinned_ptr_snd (rt : Runtime σ) (st : RTState σ) (size flags : Nat) :
    (alloc_pinned_ptr rt st size flags).2 =
      ((rt.hostAlloc st.1 size flags).2, st.2 ++ [RTCall.hostAlloc size flags]) := by
  unfold alloc_pinned_ptr cudaHostAllocCall
  by_cases h : (rt.hostAlloc st.1 size flags).1.err = cudaSuccess <;> simp [h]

/-- Characterisation of the result of `free_pinned_ptr` in terms of the
runtime's response to the one `hostFree` call it makes. -/
theorem free_pinned_ptr_fst (rt : Runtime σ) (st : RTState σ) (ptr : Nat) :
    (free_pinned_ptr rt st ptr).1 =
      if (rt.hostFree st.1 ptr).1 = cudaSuccess
      then Except.ok ()
      else Except.error
        ("cudaFreeHost failed: " ++ toString (rt.hostFree st.1 ptr).1) := by
  unfold free_pinned_ptr cudaFreeHostCall
  by_cases h : (rt.hostFree st.1 ptr).1 = cudaSuccess <;> simp [h]

/-- Characterisation of the state after `free_pinned_ptr`: the runtime
state evolves by the one `hostFree` call, and that call, carrying the exact
handle, is appended to the trace. -/
theorem free_pinned_ptr_snd (rt : Runtime σ) (st : RTState σ) (ptr : Nat) :
    (free_pinned_ptr rt st ptr).2 =
      ((rt.hostFree st.1 ptr).2, st.2 ++ [RTCall.hostFree ptr]) := by
  unfold free_pinned_ptr cudaFreeHostCall
  by_cases h : (rt.hostFree st.1 ptr).1 = cudaSuccess <;> simp [h]

/-- C1: for every runtime, state, size and flags, `alloc_pinned_ptr` raises
an error if and only if the runtime's `hostAlloc` call reports a
non-success status; any raised error's message contains the runtime's raw
numeric status converted to text (it ends with `toString err`); and when
the runtime reports success, no error is raised (the pointer is returned). -/
theorem alloc_error_iff_nonsuccess (rt : Runtime σ) (st : RTState σ)
    (size flags : Nat) :
    (isError (alloc_pinned_ptr rt st size flags).1 = true ↔
      (rt.hostAlloc st.1 size flags).1.err ≠ cudaSuccess) ∧
    (∀ msg, (alloc_pinned_ptr rt st size flags).1 = Except.error msg →
      ∃ pre, msg = pre ++ toString (rt.hostAlloc st.1 size flags).1.err) ∧
    ((rt.hostAlloc st.1 size flags).1.err = cudaSuccess →
      (alloc_pinned_ptr rt st size flags).1 =
        Except.ok (rt.hostAlloc st.1 size flags).1.ptr) := by
  rw [alloc_pinned_ptr_fst]
  refine ⟨?_, ?_, ?_⟩
  · by_cases h : (rt.hostAlloc st.1 size flags).1.err = cudaSuccess <;>
      simp [h, isError]
  · intro msg hmsg
    by_cases h : (rt.hostAlloc st.1 size flags).1.err = cudaSuccess <;>
      simp [h] at hmsg
    exact ⟨"cudaHostAlloc failed: ", hmsg.symm⟩
  · intro h; simp [h]

/-- C2: for every runtime, state and handle, `free_pinned_ptr` raises an
error if and only if the runtime's `hostFree` call reports a non-success
status; any raised error's message contains the runtime's raw numeric
status converted to text; and when the runtime reports success,
`free_pinned_ptr` returns normally with no value. -/
theorem free_error_iff_nonsuccess (rt : Runtime σ) (st : RTState σ) (ptr : Nat) :
    (isError (free_pinned_ptr rt st ptr).1 = true ↔
      (rt.hostFree st.1 ptr).1 ≠ cudaSuccess) ∧
    (∀ msg, (free_pinned_ptr rt st ptr).1 = Except.error msg →
      ∃ pre, msg = pre ++ toString (rt.hostFree st.1 ptr).1) ∧
    ((rt.hostFree st.1 ptr).1 = cudaSuccess →
      (free_pinned_ptr rt st ptr).1 = Except.ok ()) := by
  rw [free_pinned_ptr_fst]
  refine ⟨?_, ?_, ?_⟩
  · by_cases h : (rt.hostFree st.1 ptr).1 = cudaSuccess <;> simp [h, isError]
  · intro msg hmsg
    by_cases h : (rt.hostFree st.1 ptr).1 = cudaSuccess <;> simp [h] at hmsg
    exact ⟨"cudaFreeHost failed: ", hmsg.symm⟩
  · intro h; simp [h]

/-- C3: for every runtime, state, size and flags, the only runtime call
`alloc_pinned_ptr` makes is `hostAlloc` with exactly the given `size` and
`flags` (no interpretation or validation: every size and flags value
reaches the runtime unmodified), and on success it returns exactly the
pointer value the runtime wrote, as an integer handle. -/
theorem alloc_forwards_args_and_ptr (rt : Runtime σ) (st : RTState σ)
    (size flags : Nat) :
    (alloc_pinned_ptr rt st size flags).2.2 =
      st.2 ++ [RTCall.hostAlloc size flags] ∧
    ((rt.hostAlloc st.1 size flags).1.err = cudaSuccess →
      (alloc_pinned_ptr rt st size flags).1 =
        Except.ok (rt.hostAlloc st.1 size flags).1.ptr) := by
  constructor
  · rw [alloc_pinned_ptr_snd]
  · intro h
    rw [alloc_pinned_ptr_fst, if_pos h]

/-- C4: for every runtime, state and handle, the only runtime call
`free_pinned_ptr` makes is `hostFree` with exactly the handle's value as
the pointer (the reinterpretation preserves the bit pattern, i.e. the
numeric value), and the runtime state evolves by exactly that call. -/
theorem free_forwards_handle (rt : Runtime σ) (st : RTState σ) (ptr : Nat) :
    (free_pinned_ptr rt st ptr).2.2 = st.2 ++ [RTCall.hostFree ptr] ∧
    (free_pinned_ptr rt st ptr).2.1 = (rt.hostFree st.1 ptr).2 := by
  rw [free_pinned_ptr_snd]
  exact ⟨rfl, rfl⟩

/-- C5: for every runtime with some notion of live allocations such that a
successful `hostAlloc` of a positive size yields a live pointer and
`hostFree` succeeds on live pointers, a successful `alloc_pinned_ptr`
returning handle `A` followed immediately by `free_pinned_ptr` on `A`
returns normally without raising. -/
theorem alloc_then_free_succeeds (rt : Runtime σ) (live : σ → Nat → Prop)
    (hA : ∀ s size flags, 0 < size →
      (rt.hostAlloc s size flags).1.err = cudaSuccess →
      live (rt.hostAlloc s size flags).2 (rt.hostAlloc s size flags).1.ptr)
    (hF : ∀ s p, live s p → (rt.hostFree s p).1 = cudaSuccess)
    (st : RTState σ) (size flags : Nat) (hsz : 0 < size)
    (A : Nat) (st1 : RTState σ)
    (hok : alloc_pinned_ptr rt st size flags = (Except.ok A, st1)) :
    (free_pinned_ptr rt st1 A).1 = Except.ok () := by
  have hfst := congrArg Prod.fst hok
  have hsnd := congrArg Prod.snd hok
  rw [alloc_pinned_ptr_fst] at hfst
  rw [alloc_pinned_ptr_snd] at hsnd
  by_cases h : (rt.hostAlloc st.1 size flags).1.err = cudaSuccess
  · rw [if_pos h] at hfst
    have hptr : (rt.hostAlloc st.1 size flags).1.ptr = A := by
      simpa using hfst
    have hst : st1 = ((rt.hostAlloc st.1 size flags).2,
        st.2 ++ [RTCall.hostAlloc size flags]) := by simpa using hsnd.symm
    have hlive : live st1.1 A := by
      rw [hst]
      exact hptr ▸ hA st.1 size flags hsz h
    rw [free_pinned_ptr_fst, if_pos (hF st1.1 A hlive)]
  · rw [if_neg h] at hfst
    exact absurd hfst (by simp)

/-- Witness for C5: with the concrete live-list runtime, the allocation
`alloc_pinned_ptr listRuntime (([]), []) 4096 0` succeeds returning handle
4097, and releasing that handle from the resulting state succeeds. -/
theorem alloc_then_free_succeeds_witness :
    (free_pinned_ptr listRuntime ([4097], [RTCall.hostAlloc 4096 0]) 4097).1 =
      Except.ok () :=
  alloc_then_free_succeeds listRuntime (fun s p => p ∈ s)
    (by intro s size flags hsz hok; simp [listRuntime])
    (by intro s p hp; simp [listRuntime, hp])
    ([], []) 4096 0 (by decide) 4097 ([4097], [RTCall.hostAlloc 4096 0]) rfl

/-- C6: each operation makes exactly one runtime call per invocation, on
every path: whatever status the runtime reports, the trace grows by exactly
one call (no retry, no compensating call before an error is raised, and no
additional call on success). -/
theorem one_runtime_call_each (rt : Runtime σ) (st : RTState σ)
    (size flags ptr : Nat) :
    (alloc_pinned_ptr rt st size flags).2.2.length = st.2.length + 1 ∧
    (free_pinned_ptr rt st ptr).2.2.length = st.2.length + 1 := by
  constructor
  · rw [alloc_pinned_ptr_snd]; simp
  · rw [free_pinned_ptr_snd]; simp

/-- C7 counterexample: `free_pinned_ptr` applied to the handle 0 under a
runtime whose `hostFree` reports success on the null pointer does not raise
any error, refuting the unconditional claim that Release(0) fails. -/
theorem release_zero_counterexample :
    ¬ isError (free_pinned_ptr okRuntime ((), []) 0).1 = true := by decide

/-- C7 amended: `free_pinned_ptr` on the handle 0 raises a release error if
and only if the runtime's `hostFree` reports a non-success status for the
null pointer; the component itself performs no null-handle check. -/
theorem release_zero_iff_runtime_rejects (rt : Runtime σ) (st : RTState σ) :
    isError (free_pinned_ptr rt st 0).1 = true ↔
      (rt.hostFree st.1 0).1 ≠ cudaSuccess := by
  rw [free_pinned_ptr_fst]
  by_cases h : (rt.hostFree st.1 0).1 = cudaSuccess <;> simp [h, isError]

/-- C8: the observable result of each operation (returned handle, normal
return, or error message) is a function only of the operation's arguments
and the runtime's response to the single call made: two runs against
runtimes with arbitrarily different internal states (even of different
state types) that return equal responses produce identical observable
results. -/
theorem result_depends_only_on_response {σ1 σ2 : Type}
    (rt1 : Runtime σ1) (rt2 : Runtime σ2)
    (st1 : RTState σ1) (st2 : RTState σ2) (size flags ptr : Nat)
    (hA : (rt1.hostAlloc st1.1 size flags).1 = (rt2.hostAlloc st2.1 size flags).1)
    (hF : (rt1.hostFree st1.1 ptr).1 = (rt2.hostFree st2.1 ptr).1) :
    (alloc_pinned_ptr rt1 st1 size flags).1 =
      (alloc_pinned_ptr rt2 st2 size flags).1 ∧
    (free_pinned_ptr rt1 st1 ptr).1 = (free_pinned_ptr rt2 st2 ptr).1 := by
  rw [alloc_pinned_ptr_fst, alloc_pinned_ptr_fst, free_pinned_ptr_fst,
    free_pinned_ptr_fst, hA, hF]
  exact ⟨rfl, rfl⟩

/-- Witness for C8: two runtimes with different state types (`Unit` versus
`Bool`) and different traces but equal responses yield the same observable
allocation result. -/
theorem result_depends_only_on_response_witness :
    (alloc_pinned_ptr okRuntime ((), []) 64 1).1 =
      (alloc_pinned_ptr (Runtime.mk (fun s _ _ => ({ ptr := 4096, err := 0 }, s))
        (fun s _ => (0, s)) : Runtime Bool) (true, [RTCall.hostFree 7]) 64 1).1 :=
  (result_depends_only_on_response okRuntime _ ((), []) (true, [RTCall.hostFree 7])
    64 1 0 rfl rfl).1

/-- C9: both operations raise errors of the same type (modelled by the one
`Except String` error branch, as both throw `std::runtime_error`); every
allocation error message is exactly the fixed prefix
`"cudaHostAlloc failed: "` followed by the decimal status, every release
error message is exactly `"cudaFreeHost failed: "` followed by the decimal
status, and no allocation error message equals any release error message,
so the error kind is recoverable from the message alone. -/
theorem errors_same_type_distinct_prefixes (rt : Runtime σ) (st : RTState σ)
    (size flags ptr : Nat) :
    (∀ msg, (alloc_pinned_ptr rt st size flags).1 = Except.error msg →
      msg = "cudaHostAlloc failed: " ++
        toString (rt.hostAlloc st.1 size flags).1.err) ∧
    (∀ msg, (free_pinned_ptr rt st ptr).1 = Except.error msg →
      msg = "cudaFreeHost failed: " ++ toString (rt.hostFree st.1 ptr).1) ∧
    (∀ e1 e2 : Nat,
      "cudaHostAlloc failed: " ++ toString e1 ≠
        "cudaFreeHost failed: " ++ toString e2) := by
  refine ⟨?_, ?_, ?_⟩
  · intro msg hmsg
    rw [alloc_pinned_ptr_fst] at hmsg
    by_cases h : (rt.hostAlloc st.1 size flags).1.err = cudaSuccess <;>
      simp [h] at hmsg
    exact hmsg.symm
  · intro msg hmsg
    rw [free_pinned_ptr_fst] at hmsg
    by_cases h : (rt.hostFree st.1 ptr).1 = cudaSuccess <;> simp [h] at hmsg
    exact hmsg.symm
  · intro e1 e2 h
    have h2 := congrArg String.data h
    simp only [String.data_append] at h2
    have h3 := congrArg (fun l : List Char => l[4]?) h2
    simp only at h3
    rw [List.getElem?_append_left (by decide),
      List.getElem?_append_left (by decide)] at h3
    exact absurd h3 (by decide)

/-- C10: `alloc_pinned_ptr` performs no null check on the success path: if
the runtime reports success while leaving the output pointer at its initial
null value, the handle 0 is returned without raising. -/
theorem alloc_no_null_check (rt : Runtime σ) (st : RTState σ) (size flags : Nat)
    (h : (rt.hostAlloc st.1 size flags).1 = { ptr := 0, err := cudaSuccess }) :
    (alloc_pinned_ptr rt st size flags).1 = Except.ok 0 := by
  rw [alloc_pinned_ptr_fst, h]
  simp

/-- Witness for C10: under the runtime that reports success with a null
output pointer, a zero-size allocation returns the handle 0. -/
theorem alloc_no_null_check_witness :
    (alloc_pinned_ptr nullOkRuntime ((), []) 0 0).1 = Except.ok 0 :=
  alloc_no_null_check nullOkRuntime ((), []) 0 0 rfl
